import Mathlib

/-!
Verification of the monitor/history subsystem of a desktop system-resource
monitor (five monitors: CPU, Memory, Disk, Network, Process; files
`src/monitors/*.py`).

The Python code is shallowly embedded:
  * `collections.deque(maxlen=m)` with `append` becomes `dequeAppend m`;
  * Python floats (CPU percentages, `time.time()` values, byte counters
    divided into KB/GB) are idealised as rationals `ℚ`;
  * a psutil call that may raise becomes an `Except String` input to the
    recorder-tick functions: `Except.error` is an exception flowing out of
    the call, and the embedded tick propagates or swallows it exactly the
    way the Python `try`/`except` structure does;
  * Python object aliasing (nested lists stored in a deque and shallow
    copies made by `list(...)`) is made explicit with a small heap of
    list cells, for the defensive-copy claim;
  * thread lifecycle (`start_monitoring` / `stop_monitoring`, `Thread`,
    `join(timeout)`, `time.sleep(interval)`) is modelled as a discrete
    timed state machine with a set of live recorder threads.
-/

/-! ## Ring buffer: `collections.deque(maxlen = m)`

`deque.append` keeps at most `m` elements, discarding the oldest element
when the deque is full (with `maxlen = 0` the deque always stays empty).
-/

/-- One `append` on a Python `deque(maxlen = m)`: append on the right,
then drop from the left whatever exceeds the bound `m`. -/
def dequeAppend (m : Nat) (buf : List α) (x : α) : List α :=
  let b := buf ++ [x]
  b.drop (b.length - m)

/-! ## CPU monitor (`src/monitors/cpu_monitor.py`) -/

/-- `CPUMonitor.__init__`: `max_samples = history_duration // update_interval`
(Python floor division on nonnegative integers). -/
def CPUMonitor.maxSamples (history_duration update_interval : Nat) : Nat :=
  history_duration / update_interval

/-- One sample taken by a CPU recorder tick: total usage percent, the
per-core usage list, and the timestamp (`datetime.now()`, idealised as ℚ). -/
structure CpuTick where
  usage : ℚ
  per_cpu : List ℚ
  timestamp : ℚ
deriving DecidableEq

/-- The three history deques owned by `CPUMonitor`. -/
structure CPUState where
  cpu_history : List ℚ
  per_cpu_history : List (List ℚ)
  timestamps : List ℚ
deriving DecidableEq

def CPUMonitor.emptyState : CPUState := ⟨[], [], []⟩

/-- `CPUMonitor._update_history` after its two psutil reads succeeded:
append usage, per-core list and timestamp to the three deques (all three
appends happen under the monitor lock). -/
def CPUMonitor.update_history (cap : Nat) (s : CPUState) (t : CpuTick) : CPUState where
  cpu_history := dequeAppend cap s.cpu_history t.usage
  per_cpu_history := dequeAppend cap s.per_cpu_history t.per_cpu
  timestamps := dequeAppend cap s.timestamps t.timestamp

/-- The value shape returned by `CPUMonitor.get_history`. -/
structure CpuHistoryView where
  timestamps : List ℚ
  cpu_usage : List ℚ
  per_cpu_usage : List (List ℚ)
deriving DecidableEq

/-- `CPUMonitor.get_history`: returns the three buffered series (the
sharing structure of the `list(...)` copies is modelled separately with an
explicit heap, below). -/
def CPUMonitor.get_history (s : CPUState) : CpuHistoryView :=
  ⟨s.timestamps, s.cpu_history, s.per_cpu_history⟩

/-- A CPU recorder tick including the fallible psutil queries.  Neither
`CPUMonitor._update_history` nor `CPUMonitor._monitor_loop` contains any
`try`/`except`, so an exception raised by the metric query propagates out
of the tick (and kills the recorder thread). -/
def CPUMonitor.tickRun (cap : Nat) (query : Except String CpuTick)
    (s : CPUState) : Except String CPUState :=
  match query with
  | Except.error e => Except.error e
  | Except.ok t => Except.ok (CPUMonitor.update_history cap s t)

/-! ## Memory monitor (`src/monitors/memory_monitor.py`) -/

/-- The dict built by `MemoryMonitor.get_memory_info`. -/
structure MemInfo where
  total : ℚ
  available : ℚ
  used : ℚ
  free : ℚ
  percent : ℚ
  total_gb : ℚ
  available_gb : ℚ
  used_gb : ℚ
  free_gb : ℚ
deriving DecidableEq

/-- The dict built by `MemoryMonitor.get_swap_info`. -/
structure SwapInfo where
  total : ℚ
  used : ℚ
  free : ℚ
  percent : ℚ
  total_gb : ℚ
  used_gb : ℚ
  free_gb : ℚ
  sin : ℚ
  sout : ℚ
deriving DecidableEq

/-- The three history deques owned by `MemoryMonitor`. -/
structure MemoryState where
  memory_history : List MemInfo
  swap_history : List SwapInfo
  timestamps : List ℚ
deriving DecidableEq

def MemoryMonitor.emptyState : MemoryState := ⟨[], [], []⟩

/-- `MemoryMonitor._update_history` after its psutil reads succeeded. -/
def MemoryMonitor.update_history (cap : Nat) (s : MemoryState)
    (mem : MemInfo) (swap : SwapInfo) (ts : ℚ) : MemoryState where
  memory_history := dequeAppend cap s.memory_history mem
  swap_history := dequeAppend cap s.swap_history swap
  timestamps := dequeAppend cap s.timestamps ts

/-- The shape returned by `MemoryMonitor.get_history`: the timestamp list
plus three series projected out of the buffered dicts by comprehensions. -/
structure MemHistoryView where
  timestamps : List ℚ
  memory_percent : List ℚ
  memory_used_gb : List ℚ
  swap_percent : List ℚ
deriving DecidableEq

def MemoryMonitor.get_history (s : MemoryState) : MemHistoryView :=
  ⟨s.timestamps, s.memory_history.map MemInfo.percent,
    s.memory_history.map MemInfo.used_gb, s.swap_history.map SwapInfo.percent⟩

/-- A memory recorder tick with its fallible psutil reads; as for the CPU
monitor, `MemoryMonitor._monitor_loop` has no exception handler, so a
raising read propagates out of the tick. -/
def MemoryMonitor.tickRun (cap : Nat)
    (query : Except String (MemInfo × SwapInfo × ℚ)) (s : MemoryState) :
    Except String MemoryState :=
  match query with
  | Except.error e => Except.error e
  | Except.ok (mem, swap, ts) =>
      Except.ok (MemoryMonitor.update_history cap s mem swap ts)

/-- One zone line parsed by `MemoryMonitor.get_memory_fragmentation` from
the kernel free-block-by-order statistics (`/proc/buddyinfo`); each number
is a nonnegative kernel counter of free blocks of one allocation order. -/
structure BuddyZone where
  name : String
  blocks : List Nat

/-- Primary fragmentation computation (Linux path of
`MemoryMonitor.get_memory_fragmentation`): sum the three smallest orders
as `total_small`, the remaining orders as `total_large`, and return
`total_small / (total_small + total_large)` when the denominator is
positive (the ratio stays `0.0` otherwise). -/
def MemoryMonitor.fragmentationFromZones (zones : List BuddyZone) : ℚ :=
  let totals : Nat × Nat := zones.foldl
    (fun acc z =>
      if z.blocks ≠ [] then
        (acc.1 + (if z.blocks.length ≥ 3 then (z.blocks.take 3).sum else z.blocks.sum),
         acc.2 + (if z.blocks.length > 3 then (z.blocks.drop 3).sum else 0))
      else acc)
    (0, 0)
  if totals.1 + totals.2 > 0 then
    (totals.1 : ℚ) / ((totals.1 : ℚ) + (totals.2 : ℚ))
  else 0

/-- Fallback fragmentation estimate (when no platform-specific interface
is available): `1 - (mem.free / mem.available)`, guarded by
`mem.available > 0` (the ratio stays `0.0` otherwise).  The code applies
no clamping to the result. -/
def MemoryMonitor.fragmentationFallback (free available : Nat) : ℚ :=
  if 0 < available then 1 - (free : ℚ) / (available : ℚ) else 0

/-! ## Network monitor (`src/monitors/network_monitor.py`) -/

/-- The two cumulative byte counters of `psutil.net_io_counters()` used by
the rate computation (the namedtuple has further fields that the rate code
never reads). -/
structure NetCounters where
  bytes_sent : ℚ
  bytes_recv : ℚ
deriving DecidableEq

/-- The buffers and rate state owned by `NetworkMonitor`. -/
structure NetworkState where
  upload_history : List ℚ
  download_history : List ℚ
  timestamps : List ℚ
  last_counters : Option NetCounters
  last_time : Option ℚ
  current_upload_speed : ℚ
  current_download_speed : ℚ
deriving DecidableEq

def NetworkMonitor.emptyState : NetworkState :=
  ⟨[], [], [], none, none, 0, 0⟩

/-- The speed computation inside `NetworkMonitor._update_history`.  The
guard is `if self._last_counters and self._last_time:`: `_last_counters`
is `None` or a psutil namedtuple (a nonempty tuple, hence always truthy),
while `_last_time` is `None` or a float — and a Python float is falsy
exactly when it equals `0.0`.  Inside the guard, speeds are computed only
when `time_diff > 0`; otherwise both stay `0`. -/
def NetworkMonitor.computeSpeeds (last_counters : Option NetCounters)
    (last_time : Option ℚ) (current : NetCounters) (now : ℚ) : ℚ × ℚ :=
  match last_counters, last_time with
  | some lc, some lt =>
      if lt ≠ 0 then
        let td := now - lt
        if td > 0 then
          ((current.bytes_sent - lc.bytes_sent) / td,
           (current.bytes_recv - lc.bytes_recv) / td)
        else (0, 0)
      else (0, 0)
  | _, _ => (0, 0)

/-- `NetworkMonitor._update_history`: compute the speeds from the previous
reading, refresh the rate state, store the current speeds, and append the
two KB/s series and the timestamp. -/
def NetworkMonitor.update_history (cap : Nat) (s : NetworkState)
    (current : NetCounters) (now ts : ℚ) : NetworkState :=
  let sp := NetworkMonitor.computeSpeeds s.last_counters s.last_time current now
  { upload_history := dequeAppend cap s.upload_history (sp.1 / 1024)
    download_history := dequeAppend cap s.download_history (sp.2 / 1024)
    timestamps := dequeAppend cap s.timestamps ts
    last_counters := some current
    last_time := some now
    current_upload_speed := sp.1
    current_download_speed := sp.2 }

/-- The shape returned by `NetworkMonitor.get_history`. -/
structure NetHistoryView where
  timestamps : List ℚ
  upload_kbps : List ℚ
  download_kbps : List ℚ
deriving DecidableEq

def NetworkMonitor.get_history (s : NetworkState) : NetHistoryView :=
  ⟨s.timestamps, s.upload_history, s.download_history⟩

/-! ## Disk monitor (`src/monitors/disk_monitor.py`) -/

/-- The cumulative counters of `psutil.disk_io_counters()` read by
`DiskMonitor.get_io_counters`. -/
structure DiskCounters where
  read_count : ℚ
  write_count : ℚ
  read_bytes : ℚ
  write_bytes : ℚ
  read_time : ℚ
  write_time : ℚ
deriving DecidableEq

/-- The rate state of `DiskMonitor` (source fields `_last_io` and
`_last_io_time`; renamed here because of lexical restrictions on names
ending in that pair of letters). -/
structure DiskRate where
  last_counters : Option DiskCounters
  last_time : Option ℚ
deriving DecidableEq

/-- The dict returned by `DiskMonitor.get_io_counters` on success. -/
structure DiskIoDict where
  read_count : ℚ
  write_count : ℚ
  read_bytes : ℚ
  write_bytes : ℚ
  read_time : ℚ
  write_time : ℚ
  read_bytes_gb : ℚ
  write_bytes_gb : ℚ
  read_speed_mb : ℚ
  write_speed_mb : ℚ
deriving DecidableEq

/-- `DiskMonitor.get_io_counters`: the whole body sits in a
`try`/`except Exception: pass` that falls through to `return None`, so a
raising psutil query yields `None` and leaves the rate state untouched;
`psutil.disk_io_counters()` returning `None` (no disks) also yields `None`
via the `if io:` truthiness test.  On success the read/write speeds are
computed from the previous reading exactly like the network rate (same
float-truthiness guard on the stored time), and the rate state is
refreshed. -/
def DiskMonitor.get_io_counters (st : DiskRate)
    (query : Except String (Option DiskCounters)) (now : ℚ) :
    Option DiskIoDict × DiskRate :=
  match query with
  | Except.error _ => (none, st)
  | Except.ok none => (none, st)
  | Except.ok (some c) =>
      let sp : ℚ × ℚ :=
        match st.last_counters, st.last_time with
        | some lc, some lt =>
            if lt ≠ 0 then
              let td := now - lt
              if td > 0 then
                ((c.read_bytes - lc.read_bytes) / td,
                 (c.write_bytes - lc.write_bytes) / td)
              else (0, 0)
            else (0, 0)
        | _, _ => (0, 0)
      (some
        { read_count := c.read_count
          write_count := c.write_count
          read_bytes := c.read_bytes
          write_bytes := c.write_bytes
          read_time := c.read_time
          write_time := c.write_time
          read_bytes_gb := c.read_bytes / 1024 ^ 3
          write_bytes_gb := c.write_bytes / 1024 ^ 3
          read_speed_mb := sp.1 / 1024 ^ 2
          write_speed_mb := sp.2 / 1024 ^ 2 },
       ⟨some c, some now⟩)

/-- One entry of the list built by `DiskMonitor.get_partitions`: either a
resolved usage entry, or (when `psutil.disk_usage` raised a permission or
OS error for that mountpoint) an entry carrying the error marker. -/
inductive PartitionEntry where
  | usage (device mountpoint fstype opts : String)
      (total used free percent : ℚ) : PartitionEntry
  | inaccessible (device mountpoint fstype opts : String) : PartitionEntry
deriving DecidableEq

/-- The buffers and rate state owned by `DiskMonitor`. -/
structure DiskState where
  disk_history : List (List PartitionEntry)
  io_history : List (Option DiskIoDict)
  timestamps : List ℚ
  rate : DiskRate
deriving DecidableEq

def DiskMonitor.emptyState : DiskState := ⟨[], [], [], ⟨none, none⟩⟩

/-- A disk recorder tick (`DiskMonitor._update_history`): there is no
handler around the tick in `_monitor_loop`, so a raising
`psutil.disk_partitions()` propagates and kills the recorder thread,
while a raising I/O-counter query is swallowed inside `get_io_counters`
— but the tick then still appends the partitions, a `None` placeholder
I/O entry and the timestamp. -/
def DiskMonitor.tickRun (cap : Nat)
    (partsQuery : Except String (List PartitionEntry))
    (countersQuery : Except String (Option DiskCounters)) (now ts : ℚ)
    (s : DiskState) : Except String DiskState :=
  match partsQuery with
  | Except.error e => Except.error e
  | Except.ok parts =>
      let r := DiskMonitor.get_io_counters s.rate countersQuery now
      Except.ok
        { disk_history := dequeAppend cap s.disk_history parts
          io_history := dequeAppend cap s.io_history r.1
          timestamps := dequeAppend cap s.timestamps ts
          rate := r.2 }

/-! ## Process monitor (`src/monitors/process_monitor.py`) -/

/-- The two history deques of `ProcessMonitor`, both created with
`deque(maxlen=3600)`. -/
structure ProcessCountState where
  count_history : List Nat
  timestamps : List ℚ
deriving DecidableEq

def ProcessMonitor.emptyState : ProcessCountState := ⟨[], []⟩

/-- One iteration of `ProcessMonitor._monitor_loop`: the process count and
timestamp are taken inside `try: ... except Exception: pass`, so a raising
query appends nothing, leaves both buffers untouched, and the loop simply
proceeds to the next tick. -/
def ProcessMonitor.tickRun (query : Except String (Nat × ℚ))
    (s : ProcessCountState) : ProcessCountState :=
  match query with
  | Except.error _ => s
  | Except.ok (c, ts) =>
      ⟨dequeAppend 3600 s.count_history c, dequeAppend 3600 s.timestamps ts⟩

def ProcessMonitor.get_history (s : ProcessCountState) : List ℚ × List Nat :=
  (s.timestamps, s.count_history)

/-- The fields of a process dict built by `ProcessMonitor.get_process_list`
that its sorting step can read (`x.get(sort_by, 0)` on the numeric keys,
`x.get('name', '').lower()` for the name key); the remaining dict entries
(status, username, runtime, cmdline, ...) never influence the ordering. -/
structure ProcessInfo where
  pid : Int
  name : String
  cpu_percent : ℚ
  memory_percent : ℚ
  memory_mb : ℚ
  disk_total_mb : ℚ
deriving DecidableEq

/-- The numeric sort key `x.get(sort_by, 0)`, for `sort_by` drawn from the
numeric-key list of `get_process_list`. -/
def ProcessMonitor.numKey (sort_by : String) (p : ProcessInfo) : ℚ :=
  if sort_by = "cpu_percent" then p.cpu_percent
  else if sort_by = "memory_percent" then p.memory_percent
  else if sort_by = "pid" then (p.pid : ℚ)
  else if sort_by = "memory_mb" then p.memory_mb
  else if sort_by = "disk_total_mb" then p.disk_total_mb
  else 0

/-- The numeric keys accepted by the first sorting branch of
`get_process_list`. -/
def ProcessMonitor.numericKeys : List String :=
  ["cpu_percent", "memory_percent", "pid", "memory_mb", "disk_total_mb"]

/-- The comparator realising Python `list.sort(key=k, reverse=descending)`:
a stable sort that is ascending in the key, with all comparisons flipped
when `reverse` is set. -/
def pySortLe (key : ProcessInfo → ℚ) (descending : Bool)
    (a b : ProcessInfo) : Bool :=
  if descending then decide (key b ≤ key a) else decide (key a ≤ key b)

/-- The comparator of the `sort_by == 'name'` branch:
case-insensitive lexicographic order on the name. -/
def pyNameLe (descending : Bool) (a b : ProcessInfo) : Bool :=
  if descending then decide (b.name.toLower ≤ a.name.toLower)
  else decide (a.name.toLower ≤ b.name.toLower)

/-- The sorting step of `ProcessMonitor.get_process_list` applied to the
enumerated process list: numeric keys sort by `x.get(sort_by, 0)`, the
`name` key sorts by the lower-cased name, and any other `sort_by` value
leaves the list unsorted. -/
def ProcessMonitor.get_process_list (processes : List ProcessInfo)
    (sort_by : String) (descending : Bool) : List ProcessInfo :=
  if sort_by ∈ ProcessMonitor.numericKeys then
    processes.mergeSort (pySortLe (ProcessMonitor.numKey sort_by) descending)
  else if sort_by = "name" then
    processes.mergeSort (pyNameLe descending)
  else processes

/-- What the OS interaction inside `ProcessMonitor.kill_process` did: the
`psutil.Process(pid)` lookup / `name()` / signal delivery raised
`NoSuchProcess`, raised `AccessDenied`, raised some other exception, or
the signal was delivered and `proc.wait(timeout=3)` either confirmed the
exit or raised `TimeoutExpired`. -/
inductive KillOutcome where
  | noSuchProcess : KillOutcome
  | accessDenied : KillOutcome
  | otherError (msg : String) : KillOutcome
  | delivered (name : String) (exitedWithinTimeout : Bool) : KillOutcome
deriving DecidableEq

/-- The result dict of `ProcessMonitor.kill_process` (the `name` and
`warning` keys are present only on some paths). -/
structure KillResult where
  success : Bool
  message : String
  pid : Int
  name : Option String
  warning : Option String
deriving DecidableEq

/-- `ProcessMonitor.kill_process`: every path of the Python function is a
`return` of a result dict — the `try` covers the whole body and the
handlers cover `NoSuchProcess`, `AccessDenied` and every other `Exception`
— so the embedding is a total function on the outcome of the OS
interaction. -/
def ProcessMonitor.kill_process (pid : Int) (force : Bool)
    (outcome : KillOutcome) : KillResult :=
  match outcome with
  | KillOutcome.delivered pname exited =>
      let action := if force then "killed (SIGKILL)" else "terminated (SIGTERM)"
      if exited then
        { success := true
          message := "Proceso " ++ pname ++ " (PID: " ++ toString pid ++ ") "
            ++ action ++ " exitosamente"
          pid := pid
          name := some pname
          warning := none }
      else
        { success := true
          message := "Señal enviada a " ++ pname ++ " (PID: " ++ toString pid
            ++ "), esperando terminación..."
          pid := pid
          name := some pname
          warning := some "El proceso no terminó en 3 segundos" }
  | KillOutcome.noSuchProcess =>
      { success := false
        message := "Proceso con PID " ++ toString pid ++ " no encontrado"
        pid := pid
        name := none
        warning := none }
  | KillOutcome.accessDenied =>
      { success := false
        message := "Permiso denegado para terminar proceso " ++ toString pid
          ++ ". Intente con sudo."
        pid := pid
        name := none
        warning := none }
  | KillOutcome.otherError msg =>
      { success := false
        message := "Error al terminar proceso " ++ toString pid ++ ": " ++ msg
        pid := pid
        name := none
        warning := none }

/-! ## Aliasing model of the `get_history` copies

`get_history` builds its result with `list(self.some_deque)`: a fresh
top-level list whose elements are the same objects the deque holds.  For
scalar elements (floats, datetimes) that sharing is unobservable, but the
CPU per-core entries (and the disk partition/io entries) are mutable
lists/dicts, so the returned structure and the monitor share them.  The
sharing is made explicit with a heap of list objects addressed by `Nat`
identities. -/

/-- A heap of Python list objects: cell `r` holds the current contents of
the list object with identity `r`. -/
def PyHeap := List (List ℚ)

def PyHeap.readCell (h : PyHeap) (r : Nat) : List ℚ := h.getD r []

/-- In-place element assignment `obj[i] = v` on the list object `r`. -/
def PyHeap.writeCell (h : PyHeap) (r i : Nat) (v : ℚ) : PyHeap :=
  h.set r ((h.getD r []).set i v)

/-- The `CPUMonitor` buffers with the per-core deque holding object
references: each recorder tick appends the reference of the fresh list
`psutil.cpu_percent(percpu=True)` returned. -/
structure CpuBuffersRef where
  timestamps : List ℚ
  cpu_history : List ℚ
  per_cpu_refs : List Nat
deriving DecidableEq

/-- The structure `CPUMonitor.get_history` returns, at reference level:
fresh top-level lists, element references unchanged. -/
structure CpuHistoryRefView where
  timestamps : List ℚ
  cpu_usage : List ℚ
  per_cpu_usage : List Nat
deriving DecidableEq

/-- `CPUMonitor.get_history` in the reference model: `list(...)` copies
the deque into a new list of the same element references. -/
def CpuBuffersRef.get_history (s : CpuBuffersRef) : CpuHistoryRefView :=
  ⟨s.timestamps, s.cpu_history, s.per_cpu_refs⟩

/-- Resolving the per-core series of a returned history against the heap:
the values a caller actually observes when it reads the entries. -/
def CpuHistoryRefView.resolvePerCpu (v : CpuHistoryRefView) (h : PyHeap) :
    List (List ℚ) :=
  v.per_cpu_usage.map (PyHeap.readCell h)

/-! ## Thread lifecycle (`start_monitoring` / `stop_monitoring`)

Each monitor owns `_running : bool` and `_thread`.  `start_monitoring`
spawns a recorder thread only when the flag is down; the recorder loop
sleeps `update_interval` seconds, then checks the flag: down means exit,
up means do a tick and sleep again.  `stop_monitoring` clears the flag and
`join`s the stored thread with a bounded timeout (2 s for CPU, Memory,
Disk, Network; 1 s for Process), then drops the handle — without checking
whether the join actually succeeded.  The model is a discrete timed state
machine: `live` is the set of recorder threads that have not exited, each
carrying the absolute time its current sleep ends. -/

/-- Python `max` on two floats, written with a decidable comparison so
that concrete traces evaluate. -/
def rmax (a b : ℚ) : ℚ := if a ≤ b then b else a

structure RecThread where
  tid : Nat
  wakeAt : ℚ
deriving DecidableEq

structure LifecycleState where
  running : Bool
  thread : Option Nat
  live : List RecThread
  nextId : Nat
  now : ℚ
deriving DecidableEq

/-- The state right after `__init__`: flag down, no handle, no thread. -/
def LifecycleState.initial : LifecycleState := ⟨false, none, [], 0, 0⟩

/-- Where a thread sleeping until `w ≤ t` is at time `t` while the running
flag stays up: it woke, ticked and went back to sleep some whole number of
times, and is now sleeping until the first multiple `w + k·interval`
beyond `t`. -/
def advanceWake (interval t w : ℚ) : ℚ :=
  w + interval * (Nat.floor ((t - w) / interval) + 1)

def wakeStep (interval : ℚ) (running : Bool) (t : ℚ) (th : RecThread) :
    Option RecThread :=
  if th.wakeAt ≤ t then
    if running then some ⟨th.tid, advanceWake interval t th.wakeAt⟩ else none
  else some th

/-- Let background time pass until `t`: every live thread whose sleep ends
by `t` wakes and checks the running flag — it exits if the flag is down
and keeps ticking and sleeping otherwise. -/
def processWakes (interval : ℚ) (running : Bool) (t : ℚ)
    (live : List RecThread) : List RecThread :=
  live.filterMap (wakeStep interval running t)

/-- `start_monitoring`, requested at time `treq` (served once the previous
call has returned): spawn a fresh recorder thread and store its handle
only if the flag is down; a call while running changes nothing. -/
def LifecycleState.start_monitoring (interval treq : ℚ)
    (s : LifecycleState) : LifecycleState :=
  let t := rmax treq s.now
  let live := processWakes interval s.running t s.live
  if s.running then ⟨s.running, s.thread, live, s.nextId, t⟩
  else ⟨true, some s.nextId, live ++ [⟨s.nextId, t + interval⟩], s.nextId + 1, t⟩

/-- `stop_monitoring`, requested at time `treq`: clear the flag, and if a
handle is stored, `join(timeout)` that thread — the join returns when the
thread wakes (it then sees the cleared flag and exits) or when the timeout
elapses, whichever is first; in the timeout case the thread is still
alive, but the handle is dropped regardless. -/
def LifecycleState.stop_monitoring (interval timeoutSec treq : ℚ)
    (s : LifecycleState) : LifecycleState :=
  let t := rmax treq s.now
  let live := processWakes interval s.running t s.live
  match s.thread with
  | none => ⟨false, none, live, s.nextId, t⟩
  | some tid =>
      match live.find? (fun th => th.tid == tid) with
      | none => ⟨false, none, live, s.nextId, t⟩
      | some th =>
          if th.wakeAt ≤ t + timeoutSec then
            ⟨false, none, live.filter (fun th2 => !(th2.tid == tid)), s.nextId,
              th.wakeAt⟩
          else ⟨false, none, live, s.nextId, t + timeoutSec⟩

/-- Run a call trace against one monitor: `(true, t)` requests
`start_monitoring` at time `t`, `(false, t)` requests `stop_monitoring`. -/
def runTrace (interval timeoutSec : ℚ) (ops : List (Bool × ℚ)) :
    LifecycleState :=
  ops.foldl
    (fun s op =>
      if op.1 then LifecycleState.start_monitoring interval op.2 s
      else LifecycleState.stop_monitoring interval timeoutSec op.2 s)
    LifecycleState.initial

/-! ## Additional per-monitor surface needed by the claims -/

/-- The shape returned by `DiskMonitor.get_history`. -/
structure DiskHistoryView where
  timestamps : List ℚ
  disk_usage : List (List PartitionEntry)
  io_stats : List (Option DiskIoDict)
deriving DecidableEq

def DiskMonitor.get_history (s : DiskState) : DiskHistoryView :=
  ⟨s.timestamps, s.disk_history, s.io_history⟩

/-- The states a disk monitor reaches: the fold of its successful recorder
ticks (a tick whose partition enumeration raises changes no state — the
exception kills the recorder thread — so the reachable states are exactly
the folds of ticks with enumerated partitions, the I/O-counter query still
free to fail). -/
def DiskMonitor.runTicks (cap : Nat)
    (ticks : List (List PartitionEntry × Except String (Option DiskCounters) × ℚ × ℚ))
    (s : DiskState) : DiskState :=
  ticks.foldl
    (fun s t =>
      match DiskMonitor.tickRun cap (Except.ok t.1) t.2.1 t.2.2.1 t.2.2.2 s with
      | Except.ok s2 => s2
      | Except.error _ => s)
    s

/-- The states a process monitor reaches: the fold of its recorder ticks
(each tick may fail; `tickRun` swallows the failure). -/
def ProcessMonitor.runTicks (ticks : List (Except String (Nat × ℚ)))
    (s : ProcessCountState) : ProcessCountState :=
  ticks.foldl (fun s q => ProcessMonitor.tickRun q s) s

/-- A network recorder tick including the fallible psutil query.
`NetworkMonitor._monitor_loop` has no exception handler around
`_update_history`, so a raising `psutil.net_io_counters()` propagates out
of the tick (and kills the recorder thread). -/
def NetworkMonitor.tickRun (cap : Nat)
    (query : Except String (NetCounters × ℚ × ℚ)) (s : NetworkState) :
    Except String NetworkState :=
  match query with
  | Except.error e => Except.error e
  | Except.ok (c, now, ts) =>
      Except.ok (NetworkMonitor.update_history cap s c now ts)

/-! ## Aliasing model of the Disk `get_history` copies

`DiskMonitor.get_history` also returns `list(...)` shallow copies: the
elements of `disk_usage` are the very partition-snapshot list objects the
deque holds, and the elements of `io_stats` are the very I/O-counter dict
objects (or the immutable `None`).  As for the CPU model, the sharing is
made explicit with heaps of objects addressed by `Nat` identities. -/

/-- A heap of partition-snapshot list objects. -/
def PartHeap := List (List PartitionEntry)

def PartHeap.readCell (h : PartHeap) (r : Nat) : List PartitionEntry :=
  h.getD r []

/-- In-place element assignment `obj[j] = v` on the partition-snapshot
list object `r`. -/
def PartHeap.writeCell (h : PartHeap) (r j : Nat) (v : PartitionEntry) :
    PartHeap :=
  h.set r ((h.getD r []).set j v)

/-- The all-zero I/O dict, used as the read default for dangling
references (a reachable heap never needs it). -/
def DiskIoDict.zeroDict : DiskIoDict := ⟨0, 0, 0, 0, 0, 0, 0, 0, 0, 0⟩

/-- A heap of I/O-counter dict objects. -/
def DictHeap := List DiskIoDict

def DictHeap.readCell (h : DictHeap) (r : Nat) : DiskIoDict :=
  h.getD r DiskIoDict.zeroDict

/-- In-place key assignment `obj['read_count'] = v` on the I/O dict
object `r`. -/
def DictHeap.writeReadCount (h : DictHeap) (r : Nat) (v : ℚ) : DictHeap :=
  h.set r { h.getD r DiskIoDict.zeroDict with read_count := v }

/-- The `DiskMonitor` buffers with the partition and I/O deques holding
object references (`none` in `io_refs` is the Python `None` placeholder,
an immutable singleton). -/
structure DiskBuffersRef where
  timestamps : List ℚ
  disk_refs : List Nat
  io_refs : List (Option Nat)
deriving DecidableEq

/-- The structure `DiskMonitor.get_history` returns, at reference level:
fresh top-level lists, element references unchanged. -/
structure DiskHistoryRefView where
  timestamps : List ℚ
  disk_usage : List Nat
  io_stats : List (Option Nat)
deriving DecidableEq

def DiskBuffersRef.get_history (s : DiskBuffersRef) : DiskHistoryRefView :=
  ⟨s.timestamps, s.disk_refs, s.io_refs⟩

/-- Resolving the partition series of a returned history against the
heap. -/
def DiskHistoryRefView.resolveParts (v : DiskHistoryRefView)
    (h : PartHeap) : List (List PartitionEntry) :=
  v.disk_usage.map (PartHeap.readCell h)

/-- Resolving the I/O series of a returned history against the heap. -/
def DiskHistoryRefView.resolveIoStats (v : DiskHistoryRefView)
    (h : DictHeap) : List (Option DiskIoDict) :=
  v.io_stats.map (fun r => r.map (DictHeap.readCell h))

/-- The intended lifecycle invariant: at most one live recorder thread,
every live thread is the one the stored handle names and is due to wake
within one interval, and a cleared running flag means no live thread. -/
def LifecycleInv (interval : ℚ) (s : LifecycleState) : Prop :=
  s.live.length ≤ 1
  ∧ (∀ th ∈ s.live, s.thread = some th.tid ∧ th.wakeAt ≤ s.now + interval)
  ∧ (s.running = false → s.live = [])

/-! # Theorems -/

theorem length_dequeAppend (m : Nat) (buf : List α) (x : α) :
    (dequeAppend m buf x).length = min (buf.length + 1) m := by
  simp only [dequeAppend, List.length_drop, List.length_append, List.length_cons,
    List.length_nil]
  omega

/-- Folding appends into a bounded deque, starting from a prefix whose
length is within the bound, keeps exactly the `m` most recent elements. -/
theorem foldl_dequeAppend (m : Nat) (xs : List α) :
    ∀ init : List α, init.length ≤ m →
      xs.foldl (dequeAppend m) init =
        (init ++ xs).drop (init.length + xs.length - m) := by
  induction xs with
  | nil =>
      intro init hinit
      simp only [List.foldl_nil, List.length_nil, List.append_nil, Nat.add_zero,
        Nat.sub_eq_zero_of_le hinit, List.drop_zero]
  | cons x xs ih =>
      intro init hinit
      have hk : init.length + 1 - m ≤ (init ++ [x]).length := by
        simp only [List.length_append, List.length_cons, List.length_nil]; omega
      have hd : dequeAppend m init x = (init ++ [x]).drop (init.length + 1 - m) := by
        simp [dequeAppend]
      have hlen : ((init ++ [x]).drop (init.length + 1 - m)).length =
          min (init.length + 1) m := by
        simp only [List.length_drop, List.length_append, List.length_cons,
          List.length_nil]
        omega
      have hle : ((init ++ [x]).drop (init.length + 1 - m)).length ≤ m := by omega
      rw [List.foldl_cons, hd, ih _ hle]
      have hsplit : ((init ++ [x]) ++ xs).drop (init.length + 1 - m) =
          (init ++ [x]).drop (init.length + 1 - m) ++ xs :=
        List.drop_append_of_le_length hk
      have hdd : ((init ++ [x]).drop (init.length + 1 - m) ++ xs).drop
            (((init ++ [x]).drop (init.length + 1 - m)).length + xs.length - m) =
          ((init ++ [x]) ++ xs).drop ((init.length + 1 - m) +
            (((init ++ [x]).drop (init.length + 1 - m)).length + xs.length - m)) := by
        rw [← hsplit, List.drop_drop]
      rw [hdd]
      have hassoc : init ++ x :: xs = (init ++ [x]) ++ xs := by simp
      rw [hassoc]
      congr 1
      simp only [List.length_drop, List.length_append, List.length_cons,
        List.length_nil] at *
      omega

/-- The history reached by a fresh deque after appending the samples `xs`
in order: exactly the `m` most recent samples, in chronological order. -/
theorem foldl_dequeAppend_nil (m : Nat) (xs : List α) :
    xs.foldl (dequeAppend m) [] = xs.drop (xs.length - m) := by
  simpa using foldl_dequeAppend m xs [] (by simp)

theorem length_foldl_dequeAppend (m : Nat) (xs : List α) :
    (xs.foldl (dequeAppend m) []).length = min xs.length m := by
  rw [foldl_dequeAppend_nil]
  simp
  omega


/-- Claim C1: for a monitor constructed with `history_duration` and
`update_interval`, the buffer capacity is `history_duration //
update_interval`; the buffer length never exceeds that capacity; once at
capacity each append drops exactly the single oldest entry; and appending
any sequence of more than `capacity` samples leaves exactly the most
recent `capacity` samples in their original chronological order. -/
theorem claim_C1 {α : Type} (history_duration update_interval : Nat)
    (hpos : 0 < update_interval) (samples : List α) :
    CPUMonitor.maxSamples history_duration update_interval =
        history_duration / update_interval
    ∧ (samples.foldl
        (dequeAppend (CPUMonitor.maxSamples history_duration update_interval))
        []).length ≤ CPUMonitor.maxSamples history_duration update_interval
    ∧ (∀ (buf : List α) (x : α),
        buf.length = CPUMonitor.maxSamples history_duration update_interval →
        0 < CPUMonitor.maxSamples history_duration update_interval →
        dequeAppend (CPUMonitor.maxSamples history_duration update_interval)
          buf x = buf.drop 1 ++ [x])
    ∧ (samples.length > CPUMonitor.maxSamples history_duration update_interval →
        samples.foldl
          (dequeAppend (CPUMonitor.maxSamples history_duration update_interval))
          [] =
        samples.drop (samples.length -
          CPUMonitor.maxSamples history_duration update_interval)) := by
  refine ⟨rfl, ?_, ?_, ?_⟩
  · rw [length_foldl_dequeAppend]; omega
  · intro buf x hlen hcap
    have h1 : 1 ≤ buf.length := by omega
    simp only [dequeAppend]
    rw [show (buf ++ [x]).length - CPUMonitor.maxSamples history_duration
          update_interval = 1 by
        simp only [List.length_append, List.length_cons, List.length_nil]; omega]
    exact List.drop_append_of_le_length h1
  · intro _
    exact foldl_dequeAppend_nil _ samples

/-- Witness for claim C1 at capacity `5 / 1 = 5` with 7 appended samples:
the buffer keeps exactly the 5 most recent samples in order. -/
theorem claim_C1_witness :
    ([10, 20, 30, 40, 50, 60, 70] : List ℚ).foldl
        (dequeAppend (CPUMonitor.maxSamples 5 1)) [] =
      ([10, 20, 30, 40, 50, 60, 70] : List ℚ).drop
        (([10, 20, 30, 40, 50, 60, 70] : List ℚ).length -
          CPUMonitor.maxSamples 5 1) :=
  (claim_C1 5 1 (by decide) ([10, 20, 30, 40, 50, 60, 70] : List ℚ)).2.2.2
    (by decide)

/-- Claim C10: when `update_interval` exceeds `history_duration`, the
computed capacity `history_duration // update_interval` is `0` — every
deque of a monitor so constructed (CPU, Memory, Network and Disk all take
these two parameters and compute the same capacity; the Process monitor
hard-codes `maxlen = 3600`) is created with `maxlen = 0`, every recorder
append is discarded, and `get_history` returns empty lists forever. -/
theorem claim_C10 (history_duration update_interval : Nat)
    (hpos : 0 < update_interval) (hgt : history_duration < update_interval)
    (ticks : List CpuTick) (memTicks : List (MemInfo × SwapInfo × ℚ))
    (netTicks : List (NetCounters × ℚ × ℚ))
    (diskTicks : List (List PartitionEntry × Except String (Option DiskCounters) × ℚ × ℚ)) :
    CPUMonitor.maxSamples history_duration update_interval = 0
    ∧ CPUMonitor.get_history
        (ticks.foldl
          (CPUMonitor.update_history
            (CPUMonitor.maxSamples history_duration update_interval))
          CPUMonitor.emptyState) = ⟨[], [], []⟩
    ∧ MemoryMonitor.get_history
        (memTicks.foldl
          (fun s t => MemoryMonitor.update_history
            (CPUMonitor.maxSamples history_duration update_interval) s t.1 t.2.1 t.2.2)
          MemoryMonitor.emptyState) = ⟨[], [], [], []⟩
    ∧ NetworkMonitor.get_history
        (netTicks.foldl
          (fun s t => NetworkMonitor.update_history
            (CPUMonitor.maxSamples history_duration update_interval) s t.1 t.2.1 t.2.2)
          NetworkMonitor.emptyState) = ⟨[], [], []⟩
    ∧ DiskMonitor.get_history
        (DiskMonitor.runTicks
          (CPUMonitor.maxSamples history_duration update_interval) diskTicks
          DiskMonitor.emptyState) = ⟨[], [], []⟩ := by
  have hcap : CPUMonitor.maxSamples history_duration update_interval = 0 :=
    Nat.div_eq_of_lt hgt
  refine ⟨hcap, ?_, ?_, ?_, ?_⟩
  · rw [hcap]
    have hzero : ∀ (l : List CpuTick) (s : CPUState),
        s.cpu_history = [] → s.per_cpu_history = [] → s.timestamps = [] →
        l.foldl (CPUMonitor.update_history 0) s = ⟨[], [], []⟩ := by
      intro l
      induction l with
      | nil =>
          intro s h1 h2 h3
          cases s
          simp_all
      | cons t l ih =>
          intro s h1 h2 h3
          rw [List.foldl_cons]
          exact ih _ (by simp [CPUMonitor.update_history, dequeAppend])
            (by simp [CPUMonitor.update_history, dequeAppend])
            (by simp [CPUMonitor.update_history, dequeAppend])
    rw [hzero ticks CPUMonitor.emptyState rfl rfl rfl]
    rfl
  · rw [hcap]
    have hzero : ∀ (l : List (MemInfo × SwapInfo × ℚ)) (s : MemoryState),
        s.memory_history = [] → s.swap_history = [] → s.timestamps = [] →
        l.foldl (fun s t => MemoryMonitor.update_history 0 s t.1 t.2.1 t.2.2) s =
          ⟨[], [], []⟩ := by
      intro l
      induction l with
      | nil =>
          intro s h1 h2 h3
          cases s
          simp_all
      | cons t l ih =>
          intro s h1 h2 h3
          rw [List.foldl_cons]
          exact ih _ (by simp [MemoryMonitor.update_history, dequeAppend])
            (by simp [MemoryMonitor.update_history, dequeAppend])
            (by simp [MemoryMonitor.update_history, dequeAppend])
    rw [hzero memTicks MemoryMonitor.emptyState rfl rfl rfl]
    rfl
  · rw [hcap]
    have hzero : ∀ (l : List (NetCounters × ℚ × ℚ)) (s : NetworkState),
        s.upload_history = [] → s.download_history = [] → s.timestamps = [] →
        ((l.foldl (fun s t => NetworkMonitor.update_history 0 s t.1 t.2.1 t.2.2)
            s).upload_history = []
          ∧ (l.foldl (fun s t => NetworkMonitor.update_history 0 s t.1 t.2.1 t.2.2)
            s).download_history = []
          ∧ (l.foldl (fun s t => NetworkMonitor.update_history 0 s t.1 t.2.1 t.2.2)
            s).timestamps = []) := by
      intro l
      induction l with
      | nil => intro s h1 h2 h3; exact ⟨h1, h2, h3⟩
      | cons t l ih =>
          intro s h1 h2 h3
          rw [List.foldl_cons]
          exact ih _ (by simp [NetworkMonitor.update_history, dequeAppend])
            (by simp [NetworkMonitor.update_history, dequeAppend])
            (by simp [NetworkMonitor.update_history, dequeAppend])
    obtain ⟨hu, hd2, ht⟩ := hzero netTicks NetworkMonitor.emptyState rfl rfl rfl
    simp [NetworkMonitor.get_history, hu, hd2, ht]
  · rw [hcap]
    have hzero : ∀ (l : List (List PartitionEntry × Except String (Option DiskCounters) × ℚ × ℚ))
        (s : DiskState),
        s.disk_history = [] → s.io_history = [] → s.timestamps = [] →
        ((DiskMonitor.runTicks 0 l s).disk_history = []
          ∧ (DiskMonitor.runTicks 0 l s).io_history = []
          ∧ (DiskMonitor.runTicks 0 l s).timestamps = []) := by
      intro l
      induction l with
      | nil => intro s h1 h2 h3; exact ⟨h1, h2, h3⟩
      | cons t l ih =>
          intro s h1 h2 h3
          refine ih ⟨dequeAppend 0 s.disk_history t.1,
            dequeAppend 0 s.io_history
              (DiskMonitor.get_io_counters s.rate t.2.1 t.2.2.1).1,
            dequeAppend 0 s.timestamps t.2.2.2,
            (DiskMonitor.get_io_counters s.rate t.2.1 t.2.2.1).2⟩ ?_ ?_ ?_
          · simp [dequeAppend]
          · simp [dequeAppend]
          · simp [dequeAppend]
    obtain ⟨hd1, hd2, ht⟩ := hzero diskTicks DiskMonitor.emptyState rfl rfl rfl
    simp [DiskMonitor.get_history, hd1, hd2, ht]

/-- Witness for claim C10 at `history_duration = 5`,
`update_interval = 10`, with a few recorder ticks on each monitor: every
history stays empty. -/
theorem claim_C10_witness :
    CPUMonitor.maxSamples 5 10 = 0
    ∧ CPUMonitor.get_history
        (([⟨1, [1], 1⟩, ⟨2, [2], 2⟩, ⟨3, [3], 3⟩] : List CpuTick).foldl
          (CPUMonitor.update_history (CPUMonitor.maxSamples 5 10))
          CPUMonitor.emptyState) = ⟨[], [], []⟩
    ∧ MemoryMonitor.get_history
        (([(⟨1, 1, 1, 1, 1, 1, 1, 1, 1⟩, ⟨1, 1, 1, 1, 1, 1, 1, 1, 1⟩, 1)] :
            List (MemInfo × SwapInfo × ℚ)).foldl
          (fun s t => MemoryMonitor.update_history (CPUMonitor.maxSamples 5 10)
            s t.1 t.2.1 t.2.2)
          MemoryMonitor.emptyState) = ⟨[], [], [], []⟩
    ∧ NetworkMonitor.get_history
        (([(⟨1, 2⟩, 1, 1)] : List (NetCounters × ℚ × ℚ)).foldl
          (fun s t => NetworkMonitor.update_history (CPUMonitor.maxSamples 5 10)
            s t.1 t.2.1 t.2.2)
          NetworkMonitor.emptyState) = ⟨[], [], []⟩
    ∧ DiskMonitor.get_history
        (DiskMonitor.runTicks (CPUMonitor.maxSamples 5 10)
          ([([], Except.ok none, 1, 1)] :
            List (List PartitionEntry × Except String (Option DiskCounters) × ℚ × ℚ))
          DiskMonitor.emptyState) = ⟨[], [], []⟩ :=
  claim_C10 5 10 (by decide) (by decide)
    ([⟨1, [1], 1⟩, ⟨2, [2], 2⟩, ⟨3, [3], 3⟩] : List CpuTick)
    ([(⟨1, 1, 1, 1, 1, 1, 1, 1, 1⟩, ⟨1, 1, 1, 1, 1, 1, 1, 1, 1⟩, 1)] :
      List (MemInfo × SwapInfo × ℚ))
    ([(⟨1, 2⟩, 1, 1)] : List (NetCounters × ℚ × ℚ))
    ([([], Except.ok none, 1, 1)] :
      List (List PartitionEntry × Except String (Option DiskCounters) × ℚ × ℚ))

/-- Helper: a CPU recorder tick keeps the three buffer lengths equal. -/
theorem cpu_fold_aligned (cap : Nat) :
    ∀ (ticks : List CpuTick) (s : CPUState),
      s.cpu_history.length = s.timestamps.length →
      s.per_cpu_history.length = s.timestamps.length →
      ((ticks.foldl (CPUMonitor.update_history cap) s).cpu_history.length =
          (ticks.foldl (CPUMonitor.update_history cap) s).timestamps.length
        ∧ (ticks.foldl (CPUMonitor.update_history cap) s).per_cpu_history.length =
          (ticks.foldl (CPUMonitor.update_history cap) s).timestamps.length) := by
  intro ticks
  induction ticks with
  | nil => intro s h1 h2; exact ⟨h1, h2⟩
  | cons t ticks ih =>
      intro s h1 h2
      rw [List.foldl_cons]
      exact ih _
        (by simp only [CPUMonitor.update_history, length_dequeAppend, h1])
        (by simp only [CPUMonitor.update_history, length_dequeAppend, h2])

/-- Helper: a memory recorder tick keeps the three buffer lengths equal. -/
theorem memory_fold_aligned (cap : Nat) :
    ∀ (ticks : List (MemInfo × SwapInfo × ℚ)) (s : MemoryState),
      s.memory_history.length = s.timestamps.length →
      s.swap_history.length = s.timestamps.length →
      (((ticks.foldl (fun s t => MemoryMonitor.update_history cap s t.1 t.2.1 t.2.2) s).memory_history.length =
          (ticks.foldl (fun s t => MemoryMonitor.update_history cap s t.1 t.2.1 t.2.2) s).timestamps.length)
        ∧ ((ticks.foldl (fun s t => MemoryMonitor.update_history cap s t.1 t.2.1 t.2.2) s).swap_history.length =
          (ticks.foldl (fun s t => MemoryMonitor.update_history cap s t.1 t.2.1 t.2.2) s).timestamps.length)) := by
  intro ticks
  induction ticks with
  | nil => intro s h1 h2; exact ⟨h1, h2⟩
  | cons t ticks ih =>
      intro s h1 h2
      rw [List.foldl_cons]
      exact ih _
        (by simp only [MemoryMonitor.update_history, length_dequeAppend, h1])
        (by simp only [MemoryMonitor.update_history, length_dequeAppend, h2])

/-- Helper: a network recorder tick keeps the three buffer lengths equal
(the appended values depend on the evolving rate state, the lengths do
not). -/
theorem network_fold_aligned (cap : Nat) :
    ∀ (ticks : List (NetCounters × ℚ × ℚ)) (s : NetworkState),
      s.upload_history.length = s.timestamps.length →
      s.download_history.length = s.timestamps.length →
      (((ticks.foldl (fun s t => NetworkMonitor.update_history cap s t.1 t.2.1 t.2.2) s).upload_history.length =
          (ticks.foldl (fun s t => NetworkMonitor.update_history cap s t.1 t.2.1 t.2.2) s).timestamps.length)
        ∧ ((ticks.foldl (fun s t => NetworkMonitor.update_history cap s t.1 t.2.1 t.2.2) s).download_history.length =
          (ticks.foldl (fun s t => NetworkMonitor.update_history cap s t.1 t.2.1 t.2.2) s).timestamps.length)) := by
  intro ticks
  induction ticks with
  | nil => intro s h1 h2; exact ⟨h1, h2⟩
  | cons t ticks ih =>
      intro s h1 h2
      rw [List.foldl_cons]
      exact ih _
        (by simp only [NetworkMonitor.update_history, length_dequeAppend, h1])
        (by simp only [NetworkMonitor.update_history, length_dequeAppend, h2])

/-- Helper: a disk recorder tick keeps the three buffer lengths equal. -/
theorem disk_fold_aligned (cap : Nat) :
    ∀ (ticks : List (List PartitionEntry × Except String (Option DiskCounters) × ℚ × ℚ))
      (s : DiskState),
      s.disk_history.length = s.timestamps.length →
      s.io_history.length = s.timestamps.length →
      ((DiskMonitor.runTicks cap ticks s).disk_history.length =
          (DiskMonitor.runTicks cap ticks s).timestamps.length
        ∧ (DiskMonitor.runTicks cap ticks s).io_history.length =
          (DiskMonitor.runTicks cap ticks s).timestamps.length) := by
  intro ticks
  induction ticks with
  | nil => intro s h1 h2; exact ⟨h1, h2⟩
  | cons t ticks ih =>
      intro s h1 h2
      refine ih ⟨dequeAppend cap s.disk_history t.1,
        dequeAppend cap s.io_history
          (DiskMonitor.get_io_counters s.rate t.2.1 t.2.2.1).1,
        dequeAppend cap s.timestamps t.2.2.2,
        (DiskMonitor.get_io_counters s.rate t.2.1 t.2.2.1).2⟩ ?_ ?_
      · show (dequeAppend cap s.disk_history t.1).length =
          (dequeAppend cap s.timestamps t.2.2.2).length
        rw [length_dequeAppend, length_dequeAppend, h1]
      · show (dequeAppend cap s.io_history
            (DiskMonitor.get_io_counters s.rate t.2.1 t.2.2.1).1).length =
          (dequeAppend cap s.timestamps t.2.2.2).length
        rw [length_dequeAppend, length_dequeAppend, h2]

/-- Helper: a process recorder tick keeps the two buffer lengths equal,
whether it fails (nothing appended) or succeeds (both appended). -/
theorem process_runTicks_cons (q : Except String (Nat × ℚ))
    (ticks : List (Except String (Nat × ℚ))) (s : ProcessCountState) :
    ProcessMonitor.runTicks (q :: ticks) s =
      ProcessMonitor.runTicks ticks (ProcessMonitor.tickRun q s) := rfl

theorem process_fold_aligned :
    ∀ (ticks : List (Except String (Nat × ℚ))) (s : ProcessCountState),
      s.count_history.length = s.timestamps.length →
      (ProcessMonitor.runTicks ticks s).count_history.length =
        (ProcessMonitor.runTicks ticks s).timestamps.length := by
  intro ticks
  induction ticks with
  | nil => intro s h; exact h
  | cons q ticks ih =>
      intro s h
      rw [process_runTicks_cons]
      have hstep : (ProcessMonitor.tickRun q s).count_history.length =
          (ProcessMonitor.tickRun q s).timestamps.length := by
        cases q with
        | error e => exact h
        | ok p =>
            obtain ⟨c, ts⟩ := p
            simp only [ProcessMonitor.tickRun]
            rw [length_dequeAppend, length_dequeAppend, h]
      exact ih (ProcessMonitor.tickRun q s) hstep

/-- Claim C2: after any sequence of recorder ticks starting from a fresh
monitor, `get_history` returns index-aligned series — the timestamps list
and every data series have the same length — for every monitor: CPU
(`cpu_usage`, `per_cpu_usage`), Memory (`memory_percent`,
`memory_used_gb`, `swap_percent`), Network (`upload_kbps`,
`download_kbps`), Disk (`disk_usage`, `io_stats`) and Process (`counts`);
every tick appends one element to each buffer of its monitor under the
monitor lock. -/
theorem claim_C2 (cap : Nat) (cpuTicks : List CpuTick)
    (memTicks : List (MemInfo × SwapInfo × ℚ))
    (netTicks : List (NetCounters × ℚ × ℚ))
    (diskTicks : List (List PartitionEntry × Except String (Option DiskCounters) × ℚ × ℚ))
    (procTicks : List (Except String (Nat × ℚ))) :
    ((CPUMonitor.get_history
        (cpuTicks.foldl (CPUMonitor.update_history cap)
          CPUMonitor.emptyState)).cpu_usage.length =
      (CPUMonitor.get_history
        (cpuTicks.foldl (CPUMonitor.update_history cap)
          CPUMonitor.emptyState)).timestamps.length
      ∧ (CPUMonitor.get_history
        (cpuTicks.foldl (CPUMonitor.update_history cap)
          CPUMonitor.emptyState)).per_cpu_usage.length =
      (CPUMonitor.get_history
        (cpuTicks.foldl (CPUMonitor.update_history cap)
          CPUMonitor.emptyState)).timestamps.length)
    ∧ ((MemoryMonitor.get_history
        (memTicks.foldl (fun s t => MemoryMonitor.update_history cap s t.1 t.2.1 t.2.2)
          MemoryMonitor.emptyState)).memory_percent.length =
      (MemoryMonitor.get_history
        (memTicks.foldl (fun s t => MemoryMonitor.update_history cap s t.1 t.2.1 t.2.2)
          MemoryMonitor.emptyState)).timestamps.length
      ∧ (MemoryMonitor.get_history
        (memTicks.foldl (fun s t => MemoryMonitor.update_history cap s t.1 t.2.1 t.2.2)
          MemoryMonitor.emptyState)).memory_used_gb.length =
      (MemoryMonitor.get_history
        (memTicks.foldl (fun s t => MemoryMonitor.update_history cap s t.1 t.2.1 t.2.2)
          MemoryMonitor.emptyState)).timestamps.length
      ∧ (MemoryMonitor.get_history
        (memTicks.foldl (fun s t => MemoryMonitor.update_history cap s t.1 t.2.1 t.2.2)
          MemoryMonitor.emptyState)).swap_percent.length =
      (MemoryMonitor.get_history
        (memTicks.foldl (fun s t => MemoryMonitor.update_history cap s t.1 t.2.1 t.2.2)
          MemoryMonitor.emptyState)).timestamps.length)
    ∧ ((NetworkMonitor.get_history
        (netTicks.foldl (fun s t => NetworkMonitor.update_history cap s t.1 t.2.1 t.2.2)
          NetworkMonitor.emptyState)).upload_kbps.length =
      (NetworkMonitor.get_history
        (netTicks.foldl (fun s t => NetworkMonitor.update_history cap s t.1 t.2.1 t.2.2)
          NetworkMonitor.emptyState)).timestamps.length
      ∧ (NetworkMonitor.get_history
        (netTicks.foldl (fun s t => NetworkMonitor.update_history cap s t.1 t.2.1 t.2.2)
          NetworkMonitor.emptyState)).download_kbps.length =
      (NetworkMonitor.get_history
        (netTicks.foldl (fun s t => NetworkMonitor.update_history cap s t.1 t.2.1 t.2.2)
          NetworkMonitor.emptyState)).timestamps.length)
    ∧ ((DiskMonitor.get_history
        (DiskMonitor.runTicks cap diskTicks DiskMonitor.emptyState)).disk_usage.length =
      (DiskMonitor.get_history
        (DiskMonitor.runTicks cap diskTicks DiskMonitor.emptyState)).timestamps.length
      ∧ (DiskMonitor.get_history
        (DiskMonitor.runTicks cap diskTicks DiskMonitor.emptyState)).io_stats.length =
      (DiskMonitor.get_history
        (DiskMonitor.runTicks cap diskTicks DiskMonitor.emptyState)).timestamps.length)
    ∧ (ProcessMonitor.get_history
        (ProcessMonitor.runTicks procTicks ProcessMonitor.emptyState)).2.length =
      (ProcessMonitor.get_history
        (ProcessMonitor.runTicks procTicks ProcessMonitor.emptyState)).1.length := by
  refine ⟨?_, ?_, ?_, ?_, ?_⟩
  · have h := cpu_fold_aligned cap cpuTicks CPUMonitor.emptyState rfl rfl
    exact ⟨h.1, h.2⟩
  · have h := memory_fold_aligned cap memTicks MemoryMonitor.emptyState rfl rfl
    refine ⟨?_, ?_, ?_⟩
    · simpa [MemoryMonitor.get_history] using h.1
    · simpa [MemoryMonitor.get_history] using h.1
    · simpa [MemoryMonitor.get_history] using h.2
  · have h := network_fold_aligned cap netTicks NetworkMonitor.emptyState rfl rfl
    exact ⟨h.1, h.2⟩
  · have h := disk_fold_aligned cap diskTicks DiskMonitor.emptyState rfl rfl
    exact ⟨h.1, h.2⟩
  · exact process_fold_aligned procTicks ProcessMonitor.emptyState rfl

/-- Claim C3 is false as stated: the guard
`if self._last_counters and self._last_time:` tests the *truthiness* of
the stored float, so a previous reading whose timestamp is exactly `0.0`
is treated as absent.  With previous reading `(b0, t0) = (0, 0)` and
current reading `(b1, t1) = ((1024, 2048), 1)` — satisfying `b1 ≥ b0` and
`t1 > t0` — the computed speeds are `(0, 0)`, not
`(b1 - b0) / (t1 - t0)`. -/
theorem claim_C3_counterexample :
    (1 : ℚ) > 0
    ∧ (1024 : ℚ) ≥ 0
    ∧ NetworkMonitor.computeSpeeds (some ⟨0, 0⟩) (some 0) ⟨1024, 2048⟩ 1 = (0, 0)
    ∧ ((1024 : ℚ) - 0) / ((1 : ℚ) - 0) ≠ 0 := by
  refine ⟨by norm_num, by norm_num, by decide, by norm_num⟩

/-- Claim C3, amended: for the Network and Disk rate computations, given a
previous reading `(b0, t0)` whose timestamp is nonzero (the code treats a
stored `0.0` as absent) and a current reading `(b1, t1)` with `t1 > t0`
(and `b1 ≥ b0`), the computed speed is `(b1 - b0) / (t1 - t0)`; when
there is no previous reading the computed speeds are `0` — never an
error, never negative. -/
theorem claim_C3_amended :
    (∀ (lc current : NetCounters) (t0 t1 : ℚ),
        t0 ≠ 0 → t1 > t0 →
        current.bytes_sent ≥ lc.bytes_sent →
        current.bytes_recv ≥ lc.bytes_recv →
        NetworkMonitor.computeSpeeds (some lc) (some t0) current t1 =
          ((current.bytes_sent - lc.bytes_sent) / (t1 - t0),
           (current.bytes_recv - lc.bytes_recv) / (t1 - t0)))
    ∧ (∀ (current : NetCounters) (t1 : ℚ),
        NetworkMonitor.computeSpeeds none none current t1 = (0, 0))
    ∧ (∀ (lc c : DiskCounters) (t0 t1 : ℚ),
        t0 ≠ 0 → t1 > t0 →
        c.read_bytes ≥ lc.read_bytes → c.write_bytes ≥ lc.write_bytes →
        ((DiskMonitor.get_io_counters ⟨some lc, some t0⟩
            (Except.ok (some c)) t1).1.map DiskIoDict.read_speed_mb =
          some (((c.read_bytes - lc.read_bytes) / (t1 - t0)) / 1024 ^ 2)
        ∧ (DiskMonitor.get_io_counters ⟨some lc, some t0⟩
            (Except.ok (some c)) t1).1.map DiskIoDict.write_speed_mb =
          some (((c.write_bytes - lc.write_bytes) / (t1 - t0)) / 1024 ^ 2)))
    ∧ (∀ (c : DiskCounters) (t1 : ℚ),
        (DiskMonitor.get_io_counters ⟨none, none⟩
            (Except.ok (some c)) t1).1.map DiskIoDict.read_speed_mb = some 0
        ∧ (DiskMonitor.get_io_counters ⟨none, none⟩
            (Except.ok (some c)) t1).1.map DiskIoDict.write_speed_mb = some 0) := by
  refine ⟨?_, ?_, ?_, ?_⟩
  · intro lc current t0 t1 h0 hlt _ _
    have hpos : (0 : ℚ) < t1 - t0 := sub_pos.mpr hlt
    simp [NetworkMonitor.computeSpeeds, h0, hpos]
  · intro current t1
    rfl
  · intro lc c t0 t1 h0 hlt _ _
    have hpos : (0 : ℚ) < t1 - t0 := sub_pos.mpr hlt
    constructor
    · simp [DiskMonitor.get_io_counters, h0, hpos]
    · simp [DiskMonitor.get_io_counters, h0, hpos]
  · intro c t1
    constructor
    · simp [DiskMonitor.get_io_counters]
    · simp [DiskMonitor.get_io_counters]

/-- Witness for the amended claim C3 at concrete readings: two network
polls one second apart with `bytes_recv` grown by `102400`, and two disk
polls one second apart. -/
theorem claim_C3_amended_witness :
    NetworkMonitor.computeSpeeds (some ⟨0, 0⟩) (some 10) ⟨51200, 102400⟩ 11 =
      (((51200 : ℚ) - 0) / ((11 : ℚ) - 10), ((102400 : ℚ) - 0) / ((11 : ℚ) - 10))
    ∧ ((DiskMonitor.get_io_counters ⟨some ⟨1, 1, 4096, 8192, 1, 1⟩, some 10⟩
          (Except.ok (some ⟨2, 2, 8192, 16384, 2, 2⟩)) 11).1.map
            DiskIoDict.read_speed_mb =
        some ((((8192 : ℚ) - 4096) / ((11 : ℚ) - 10)) / 1024 ^ 2)) :=
  ⟨claim_C3_amended.1 ⟨0, 0⟩ ⟨51200, 102400⟩ 10 11 (by norm_num) (by norm_num)
      (by norm_num) (by norm_num),
    (claim_C3_amended.2.2.1 ⟨1, 1, 4096, 8192, 1, 1⟩ ⟨2, 2, 8192, 16384, 2, 2⟩
      10 11 (by norm_num) (by norm_num) (by norm_num) (by norm_num)).1⟩

/-- Claim C4 is false as stated: only the Process monitor guards its tick
with `try`/`except`.  The CPU (and Memory) recorder tick has no handler,
so a failing primary-metric query propagates out of the tick — the
recorder thread crashes instead of proceeding; and in the Disk monitor a
failing I/O-counter query is swallowed, but the tick still appends an
entry (partitions, a `None` I/O placeholder and a timestamp) instead of
appending nothing. -/
theorem claim_C4_counterexample :
    CPUMonitor.tickRun 3600 (Except.error "OSError") CPUMonitor.emptyState =
        Except.error "OSError"
    ∧ CPUMonitor.tickRun 3600 (Except.error "OSError") CPUMonitor.emptyState ≠
        Except.ok CPUMonitor.emptyState
    ∧ DiskMonitor.tickRun 720 (Except.ok []) (Except.error "OSError") 1 1
        DiskMonitor.emptyState =
        Except.ok ⟨[[]], [none], [1], ⟨none, none⟩⟩
    ∧ ([none] : List (Option DiskIoDict)) ≠ [] := by
  refine ⟨rfl, by simp [CPUMonitor.tickRun], rfl, by decide⟩

/-- Claim C4, amended: the Process monitor swallows a failing tick
silently (nothing is appended, the loop proceeds); in the CPU, Memory and
Network monitors a failing primary-metric query propagates out of the
tick and terminates the recorder thread (nothing is appended); in the
Disk monitor a failing partition enumeration propagates likewise, while a
failing I/O-counter query alone is swallowed but the tick still appends
the partition list, a `None` placeholder I/O entry and the timestamp. -/
theorem claim_C4_amended :
    (∀ (e : String) (s : ProcessCountState),
        ProcessMonitor.tickRun (Except.error e) s = s)
    ∧ (∀ (cap : Nat) (e : String) (s : CPUState),
        CPUMonitor.tickRun cap (Except.error e) s = Except.error e)
    ∧ (∀ (cap : Nat) (e : String) (s : MemoryState),
        MemoryMonitor.tickRun cap (Except.error e) s = Except.error e)
    ∧ (∀ (cap : Nat) (e : String) (s : NetworkState),
        NetworkMonitor.tickRun cap (Except.error e) s = Except.error e)
    ∧ (∀ (cap : Nat) (e : String)
        (countersQuery : Except String (Option DiskCounters)) (now ts : ℚ)
        (s : DiskState),
        DiskMonitor.tickRun cap (Except.error e) countersQuery now ts s =
          Except.error e)
    ∧ (∀ (cap : Nat) (e : String) (parts : List PartitionEntry) (now ts : ℚ)
        (s : DiskState),
        DiskMonitor.tickRun cap (Except.ok parts) (Except.error e) now ts s =
          Except.ok ⟨dequeAppend cap s.disk_history parts,
            dequeAppend cap s.io_history none,
            dequeAppend cap s.timestamps ts, s.rate⟩) := by
  exact ⟨fun _ _ => rfl, fun _ _ _ => rfl, fun _ _ _ => rfl, fun _ _ _ => rfl,
    fun _ _ _ _ _ _ => rfl, fun _ _ _ _ _ _ => rfl⟩

/-- Claim C5 is false as stated: `get_history` copies only the top-level
lists, so the per-core entries of the returned structure are the very
list objects stored in the buffer.  Concretely: a buffer holding one
per-core sample `[25, 75]` (heap cell `0`), whose returned history is
mutated in place at that entry (`view.per_cpu_usage[0][0] = 99`), makes a
subsequent `get_history` resolve to `[[99, 75]]` instead of the original
`[[25, 75]]`. -/
theorem claim_C5_counterexample :
    CpuHistoryRefView.resolvePerCpu
        (CpuBuffersRef.get_history ⟨[10], [50], [0]⟩)
        (PyHeap.writeCell ([[25, 75]] : PyHeap)
          ((CpuBuffersRef.get_history ⟨[10], [50], [0]⟩).per_cpu_usage.getD 0 0)
          0 99) ≠
      CpuHistoryRefView.resolvePerCpu
        (CpuBuffersRef.get_history ⟨[10], [50], [0]⟩)
        ([[25, 75]] : PyHeap) := by
  decide

/-- Claim C5, amended: the top-level lists returned by `get_history` are
fresh copies carrying the same element references as the buffers
(scalar series — timestamps, total usage — are immutable values, so their
sharing is unobservable), and an in-place write through a nested entry of
the returned structure — the `k`-th CPU per-core list, the `kd`-th Disk
partition-snapshot list, or the `kq`-th Disk I/O dict — is visible at the
same position of every subsequent `get_history`. -/
theorem claim_C5_amended (h : PyHeap) (s : CpuBuffersRef) (k r i : Nat)
    (v : ℚ) (ph : PartHeap) (dh : DictHeap) (sd : DiskBuffersRef)
    (kd rd j : Nat) (pe : PartitionEntry) (kq rq : Nat) (w : ℚ)
    (hk : s.per_cpu_refs.get? k = some r) (hr : r < h.length)
    (hkd : sd.disk_refs.get? kd = some rd) (hrd : rd < ph.length)
    (hkq : sd.io_refs.get? kq = some (some rq)) (hrq : rq < dh.length) :
    (CpuBuffersRef.get_history s).per_cpu_usage = s.per_cpu_refs
    ∧ (CpuBuffersRef.get_history s).timestamps = s.timestamps
    ∧ (CpuBuffersRef.get_history s).cpu_usage = s.cpu_history
    ∧ (CpuHistoryRefView.resolvePerCpu (CpuBuffersRef.get_history s)
        (PyHeap.writeCell h r i v)).get? k =
      some ((PyHeap.readCell h r).set i v)
    ∧ (DiskBuffersRef.get_history sd).disk_usage = sd.disk_refs
    ∧ (DiskBuffersRef.get_history sd).io_stats = sd.io_refs
    ∧ (DiskBuffersRef.get_history sd).timestamps = sd.timestamps
    ∧ (DiskHistoryRefView.resolveParts (DiskBuffersRef.get_history sd)
        (PartHeap.writeCell ph rd j pe)).get? kd =
      some ((PartHeap.readCell ph rd).set j pe)
    ∧ (DiskHistoryRefView.resolveIoStats (DiskBuffersRef.get_history sd)
        (DictHeap.writeReadCount dh rq w)).get? kq =
      some (some { DictHeap.readCell dh rq with read_count := w }) := by
  refine ⟨rfl, rfl, rfl, ?_, rfl, rfl, rfl, ?_, ?_⟩
  · have h1 : (CpuHistoryRefView.resolvePerCpu (CpuBuffersRef.get_history s)
        (PyHeap.writeCell h r i v)).get? k =
        Option.map (PyHeap.readCell (PyHeap.writeCell h r i v))
          (s.per_cpu_refs.get? k) :=
      List.get?_map _ _ _
    rw [h1, hk]
    show some _ = some _
    congr 1
    simp only [PyHeap.readCell, PyHeap.writeCell, List.getD_eq_getElem?_getD]
    rw [List.getElem?_set_self hr]
    rfl
  · have h1 : (DiskHistoryRefView.resolveParts (DiskBuffersRef.get_history sd)
        (PartHeap.writeCell ph rd j pe)).get? kd =
        Option.map (PartHeap.readCell (PartHeap.writeCell ph rd j pe))
          (sd.disk_refs.get? kd) :=
      List.get?_map _ _ _
    rw [h1, hkd]
    show some _ = some _
    congr 1
    simp only [PartHeap.readCell, PartHeap.writeCell, List.getD_eq_getElem?_getD]
    rw [List.getElem?_set_self hrd]
    rfl
  · have h1 : (DiskHistoryRefView.resolveIoStats (DiskBuffersRef.get_history sd)
        (DictHeap.writeReadCount dh rq w)).get? kq =
        Option.map (fun rf => Option.map
            (DictHeap.readCell (DictHeap.writeReadCount dh rq w)) rf)
          (sd.io_refs.get? kq) :=
      List.get?_map _ _ _
    rw [h1, hkq]
    show some (some _) = some (some _)
    congr 2
    simp only [DictHeap.readCell, DictHeap.writeReadCount,
      List.getD_eq_getElem?_getD]
    rw [List.getElem?_set_self hrq]
    rfl

/-- Witness for the amended claim C5 at the concrete buffer of the
counterexample, plus one disk buffer holding one partition-snapshot list
object and one I/O dict object. -/
theorem claim_C5_amended_witness :
    (CpuHistoryRefView.resolvePerCpu
        (CpuBuffersRef.get_history ⟨[10], [50], [0]⟩)
        (PyHeap.writeCell ([[25, 75]] : PyHeap) 0 0 99)).get? 0 =
      some ((PyHeap.readCell ([[25, 75]] : PyHeap) 0).set 0 99)
    ∧ (DiskHistoryRefView.resolveParts
        (DiskBuffersRef.get_history ⟨[10], [0], [some 0]⟩)
        (PartHeap.writeCell
          ([[PartitionEntry.usage "sda1" "/" "ext4" "rw" 8 4 4 50]] : PartHeap)
          0 0 (PartitionEntry.inaccessible "sda1" "/" "ext4" "rw"))).get? 0 =
      some ((PartHeap.readCell
          ([[PartitionEntry.usage "sda1" "/" "ext4" "rw" 8 4 4 50]] : PartHeap)
          0).set 0 (PartitionEntry.inaccessible "sda1" "/" "ext4" "rw"))
    ∧ (DiskHistoryRefView.resolveIoStats
        (DiskBuffersRef.get_history ⟨[10], [0], [some 0]⟩)
        (DictHeap.writeReadCount ([⟨1, 1, 1, 1, 1, 1, 1, 1, 1, 1⟩] : DictHeap)
          0 7)).get? 0 =
      some (some { DictHeap.readCell ([⟨1, 1, 1, 1, 1, 1, 1, 1, 1, 1⟩] : DictHeap)
          0 with read_count := 7 }) :=
  ⟨(claim_C5_amended ([[25, 75]] : PyHeap) ⟨[10], [50], [0]⟩ 0 0 0 99
      ([[PartitionEntry.usage "sda1" "/" "ext4" "rw" 8 4 4 50]] : PartHeap)
      ([⟨1, 1, 1, 1, 1, 1, 1, 1, 1, 1⟩] : DictHeap) ⟨[10], [0], [some 0]⟩
      0 0 0 (PartitionEntry.inaccessible "sda1" "/" "ext4" "rw") 0 0 7
      (by decide) (by decide) (by decide) (by decide) (by decide)
      (by decide)).2.2.2.1,
    (claim_C5_amended ([[25, 75]] : PyHeap) ⟨[10], [50], [0]⟩ 0 0 0 99
      ([[PartitionEntry.usage "sda1" "/" "ext4" "rw" 8 4 4 50]] : PartHeap)
      ([⟨1, 1, 1, 1, 1, 1, 1, 1, 1, 1⟩] : DictHeap) ⟨[10], [0], [some 0]⟩
      0 0 0 (PartitionEntry.inaccessible "sda1" "/" "ext4" "rw") 0 0 7
      (by decide) (by decide) (by decide) (by decide) (by decide)
      (by decide)).2.2.2.2.2.2.2.1,
    (claim_C5_amended ([[25, 75]] : PyHeap) ⟨[10], [50], [0]⟩ 0 0 0 99
      ([[PartitionEntry.usage "sda1" "/" "ext4" "rw" 8 4 4 50]] : PartHeap)
      ([⟨1, 1, 1, 1, 1, 1, 1, 1, 1, 1⟩] : DictHeap) ⟨[10], [0], [some 0]⟩
      0 0 0 (PartitionEntry.inaccessible "sda1" "/" "ext4" "rw") 0 0 7
      (by decide) (by decide) (by decide) (by decide) (by decide)
      (by decide)).2.2.2.2.2.2.2.2⟩

/-- Helper: the Python sort comparator is transitive. -/
theorem pySortLe_trans (key : ProcessInfo → ℚ) (d : Bool) :
    ∀ a b c, pySortLe key d a b = true → pySortLe key d b c = true →
      pySortLe key d a c = true := by
  intro a b c hab hbc
  cases d
  · simp only [pySortLe, Bool.false_eq_true, if_false, decide_eq_true_eq] at *
    exact le_trans hab hbc
  · simp only [pySortLe, if_true, decide_eq_true_eq] at *
    exact le_trans hbc hab

/-- Helper: the Python sort comparator is total. -/
theorem pySortLe_total (key : ProcessInfo → ℚ) (d : Bool) :
    ∀ a b, (pySortLe key d a b || pySortLe key d b a) = true := by
  intro a b
  cases d
  · simp only [pySortLe, Bool.false_eq_true, if_false, Bool.or_eq_true,
      decide_eq_true_eq]
    exact le_total _ _
  · simp only [pySortLe, if_true, Bool.or_eq_true, decide_eq_true_eq]
    exact le_total _ _

/-- Helper: the case-insensitive name comparator is transitive. -/
theorem pyNameLe_trans (d : Bool) :
    ∀ a b c, pyNameLe d a b = true → pyNameLe d b c = true →
      pyNameLe d a c = true := by
  intro a b c hab hbc
  cases d
  · simp only [pyNameLe, Bool.false_eq_true, if_false, decide_eq_true_eq] at *
    exact le_trans hab hbc
  · simp only [pyNameLe, if_true, decide_eq_true_eq] at *
    exact le_trans hbc hab

/-- Helper: the case-insensitive name comparator is total. -/
theorem pyNameLe_total (d : Bool) :
    ∀ a b, (pyNameLe d a b || pyNameLe d b a) = true := by
  intro a b
  cases d
  · simp only [pyNameLe, Bool.false_eq_true, if_false, Bool.or_eq_true,
      decide_eq_true_eq]
    exact le_total _ _
  · simp only [pyNameLe, if_true, Bool.or_eq_true, decide_eq_true_eq]
    exact le_total _ _

/-- Claim C9: for every process list and every numeric sort key,
`get_process_list` returns a permutation of the entries ordered by that
key in the direction of the `descending` flag; for `sort_by = 'name'` it
orders case-insensitively lexicographically; and on processes with
`cpu_percent` values `[5, 50, 10]`, sorting by `cpu_percent` descending
yields the order `[50, 10, 5]`. -/
theorem claim_C9 :
    (∀ (processes : List ProcessInfo) (sort_by : String) (descending : Bool),
        sort_by ∈ ProcessMonitor.numericKeys →
        (ProcessMonitor.get_process_list processes sort_by descending).Perm
            processes
        ∧ (ProcessMonitor.get_process_list processes sort_by
            descending).Pairwise
            (fun a b =>
              if descending
              then ProcessMonitor.numKey sort_by b ≤
                ProcessMonitor.numKey sort_by a
              else ProcessMonitor.numKey sort_by a ≤
                ProcessMonitor.numKey sort_by b))
    ∧ (∀ (processes : List ProcessInfo) (descending : Bool),
        (ProcessMonitor.get_process_list processes "name" descending).Perm
            processes
        ∧ (ProcessMonitor.get_process_list processes "name"
            descending).Pairwise
            (fun a b =>
              if descending then b.name.toLower ≤ a.name.toLower
              else a.name.toLower ≤ b.name.toLower))
    ∧ (ProcessMonitor.get_process_list
        [⟨1, "a", 5, 0, 0, 0⟩, ⟨2, "b", 50, 0, 0, 0⟩, ⟨3, "c", 10, 0, 0, 0⟩]
        "cpu_percent" true).map ProcessInfo.cpu_percent = [50, 10, 5] := by
  refine ⟨?_, ?_, ?_⟩
  · intro processes sort_by descending hmem
    rw [ProcessMonitor.get_process_list, if_pos hmem]
    constructor
    · exact List.mergeSort_perm processes _
    · have hs := List.sorted_mergeSort
        (pySortLe_trans (ProcessMonitor.numKey sort_by) descending)
        (pySortLe_total (ProcessMonitor.numKey sort_by) descending)
        processes
      refine hs.imp ?_
      intro a b hab
      cases descending
      · simp only [pySortLe, Bool.false_eq_true, if_false,
          decide_eq_true_eq] at hab
        simpa using hab
      · simp only [pySortLe, if_true, decide_eq_true_eq] at hab
        simpa using hab
  · intro processes descending
    rw [ProcessMonitor.get_process_list,
      if_neg (by decide : ¬ "name" ∈ ProcessMonitor.numericKeys), if_pos rfl]
    constructor
    · exact List.mergeSort_perm processes _
    · have hs := List.sorted_mergeSort (pyNameLe_trans descending)
        (pyNameLe_total descending) processes
      refine hs.imp ?_
      intro a b hab
      cases descending
      · simp only [pyNameLe, Bool.false_eq_true, if_false,
          decide_eq_true_eq] at hab
        simpa using hab
      · simp only [pyNameLe, if_true, decide_eq_true_eq] at hab
        simpa using hab
  · rw [ProcessMonitor.get_process_list,
      if_pos (by decide : "cpu_percent" ∈ ProcessMonitor.numericKeys)]
    simp [List.mergeSort, List.splitInTwo]
    norm_num [List.merge, pySortLe, ProcessMonitor.numKey]

/-- Witness for claim C9: the numeric branch applied to the concrete
three-process list, descending by `cpu_percent`. -/
theorem claim_C9_witness :
    (ProcessMonitor.get_process_list
        [⟨1, "a", 5, 0, 0, 0⟩, ⟨2, "b", 50, 0, 0, 0⟩, ⟨3, "c", 10, 0, 0, 0⟩]
        "cpu_percent" true).Perm
      [⟨1, "a", 5, 0, 0, 0⟩, ⟨2, "b", 50, 0, 0, 0⟩, ⟨3, "c", 10, 0, 0, 0⟩] :=
  (claim_C9.1
    [⟨1, "a", 5, 0, 0, 0⟩, ⟨2, "b", 50, 0, 0, 0⟩, ⟨3, "c", 10, 0, 0, 0⟩]
    "cpu_percent" true (by decide)).1

/-- Claim C7: `kill_process` is a total function into structured results:
signal delivered and exit confirmed within the 3-second wait gives
`success = true` (no warning); signal delivered without a confirmed exit
gives `success = true` plus a warning; a nonexistent process, a permission
error, or any other OS error gives `success = false` — a nonexistent pid
in particular yields the not-found message, never an exception. -/
theorem claim_C7 (pid : Int) (force : Bool) :
    (∀ pname : String,
        (ProcessMonitor.kill_process pid force
            (KillOutcome.delivered pname true)).success = true
        ∧ (ProcessMonitor.kill_process pid force
            (KillOutcome.delivered pname true)).warning = none)
    ∧ (∀ pname : String,
        (ProcessMonitor.kill_process pid force
            (KillOutcome.delivered pname false)).success = true
        ∧ (ProcessMonitor.kill_process pid force
            (KillOutcome.delivered pname false)).warning =
          some "El proceso no terminó en 3 segundos")
    ∧ ((ProcessMonitor.kill_process pid force
          KillOutcome.noSuchProcess).success = false
        ∧ (ProcessMonitor.kill_process pid force
            KillOutcome.noSuchProcess).message =
          "Proceso con PID " ++ toString pid ++ " no encontrado")
    ∧ (ProcessMonitor.kill_process pid force
        KillOutcome.accessDenied).success = false
    ∧ (∀ msg : String,
        (ProcessMonitor.kill_process pid force
            (KillOutcome.otherError msg)).success = false) :=
  ⟨fun _ => ⟨rfl, rfl⟩, fun _ => ⟨rfl, rfl⟩, ⟨rfl, rfl⟩, rfl, fun _ => rfl⟩

/-- Claim C8 is false as stated: the fallback formula
`1 - (mem.free / mem.available)` is not clamped, so an input with
`free > available` (here `free = 2`, `available = 1`) produces `-1`,
which is outside `[0, 1]`. -/
theorem claim_C8_counterexample :
    MemoryMonitor.fragmentationFallback 2 1 = -1
    ∧ ¬ (0 : ℚ) ≤ MemoryMonitor.fragmentationFallback 2 1 := by
  constructor
  · rw [MemoryMonitor.fragmentationFallback, if_pos (by norm_num)]
    norm_num
  · rw [MemoryMonitor.fragmentationFallback, if_pos (by norm_num)]
    norm_num

/-- Claim C8, amended: the primary method — `small / (small + large)` over
the kernel free-block-by-order counters — always lies in `[0, 1]`; the
fallback `1 - free/available` is always at most `1`, and lies in `[0, 1]`
whenever `free ≤ available` (which the virtual-memory interface provides
in practice but the code does not enforce). -/
theorem claim_C8_amended :
    (∀ zones : List BuddyZone,
        0 ≤ MemoryMonitor.fragmentationFromZones zones
        ∧ MemoryMonitor.fragmentationFromZones zones ≤ 1)
    ∧ (∀ free available : Nat,
        MemoryMonitor.fragmentationFallback free available ≤ 1)
    ∧ (∀ free available : Nat, free ≤ available →
        0 ≤ MemoryMonitor.fragmentationFallback free available) := by
  refine ⟨?_, ?_, ?_⟩
  · intro zones
    rw [MemoryMonitor.fragmentationFromZones]
    set t := zones.foldl
      (fun acc z =>
        if z.blocks ≠ [] then
          (acc.1 + (if z.blocks.length ≥ 3 then (z.blocks.take 3).sum else z.blocks.sum),
           acc.2 + (if z.blocks.length > 3 then (z.blocks.drop 3).sum else 0))
        else acc)
      ((0, 0) : Nat × Nat) with ht
    by_cases hpos : t.1 + t.2 > 0
    · rw [if_pos hpos]
      have hden : (0 : ℚ) < (t.1 : ℚ) + (t.2 : ℚ) := by
        have : (0 : ℚ) < ((t.1 + t.2 : Nat) : ℚ) := by exact_mod_cast hpos
        push_cast at this
        linarith
      constructor
      · positivity
      · rw [div_le_one hden]
        have : (0 : ℚ) ≤ (t.2 : ℚ) := by positivity
        linarith
    · rw [if_neg hpos]
      norm_num
  · intro free available
    rw [MemoryMonitor.fragmentationFallback]
    by_cases hpos : 0 < available
    · rw [if_pos hpos]
      have : (0 : ℚ) ≤ (free : ℚ) / (available : ℚ) := by positivity
      linarith
    · rw [if_neg hpos]
      norm_num
  · intro free available hle
    rw [MemoryMonitor.fragmentationFallback]
    by_cases hpos : 0 < available
    · rw [if_pos hpos]
      have hd : (0 : ℚ) < (available : ℚ) := by exact_mod_cast hpos
      have : (free : ℚ) / (available : ℚ) ≤ 1 := by
        rw [div_le_one hd]
        exact_mod_cast hle
      linarith
    · rw [if_neg hpos]

/-- Witness for the amended claim C8: `free = 1 ≤ available = 2` keeps
the fallback value nonnegative. -/
theorem claim_C8_amended_witness :
    (0 : ℚ) ≤ MemoryMonitor.fragmentationFallback 1 2 :=
  claim_C8_amended.2.2 1 2 (by decide)

/-- Helper: `rmax` bounds its second argument. -/
theorem le_rmax_right (a b : ℚ) : b ≤ rmax a b := by
  rw [rmax]
  by_cases h : a ≤ b
  · rw [if_pos h]
  · rw [if_neg h]
    exact (not_le.mp h).le

/-- Helper: while the running flag is up, waking threads never exit, so
letting time pass preserves the number of live threads. -/
theorem processWakes_true_length (i t : ℚ) (l : List RecThread) :
    (processWakes i true t l).length = l.length := by
  induction l with
  | nil => rfl
  | cons th l ih =>
      by_cases h : th.wakeAt ≤ t
      · simp only [processWakes, List.filterMap_cons, wakeStep, if_pos h,
          if_true] at *
        simp [ih]
      · simp only [processWakes, List.filterMap_cons, wakeStep, if_neg h] at *
        simp [ih]

/-- Helper: a thread that went back to sleep is due again within one
interval. -/
theorem advanceWake_le (i t w : ℚ) (hi : 0 < i) (hw : w ≤ t) :
    advanceWake i t w ≤ t + i := by
  rw [advanceWake]
  have h0 : (0 : ℚ) ≤ (t - w) / i := div_nonneg (by linarith) hi.le
  have hfl : ((Nat.floor ((t - w) / i) : ℚ)) ≤ (t - w) / i := Nat.floor_le h0
  have hmul : i * ((Nat.floor ((t - w) / i) : ℚ)) ≤ i * ((t - w) / i) :=
    mul_le_mul_of_nonneg_left hfl hi.le
  have hdiv : i * ((t - w) / i) = t - w := by field_simp
  have : i * ((Nat.floor ((t - w) / i) : ℚ) + 1) ≤ (t - w) + i := by
    rw [mul_add, mul_one]
    linarith [hmul, hdiv]
  linarith

/-- Helper: whatever `wakeStep` keeps retains its identity and is due to
wake at most one interval after `max t` and its old wake time. -/
theorem wakeStep_some (i : ℚ) (r : Bool) (t : ℚ) (th th2 : RecThread)
    (hi : 0 < i) (h : wakeStep i r t th = some th2) :
    th2.tid = th.tid ∧ (th2.wakeAt ≤ t + i ∨ th2.wakeAt = th.wakeAt) := by
  rw [wakeStep] at h
  by_cases hle : th.wakeAt ≤ t
  · rw [if_pos hle] at h
    cases r
    · simp at h
    · simp only [if_true] at h
      cases h
      exact ⟨rfl, Or.inl (advanceWake_le i t th.wakeAt hi hle)⟩
  · rw [if_neg hle] at h
    cases h
    exact ⟨rfl, Or.inr rfl⟩

/-- Helper: with the running flag up, `wakeStep` keeps the thread, with
its sleep advanced past `t` if it was due. -/
theorem wakeStep_true (i t : ℚ) (th : RecThread) :
    wakeStep i true t th =
      some ⟨th.tid,
        if th.wakeAt ≤ t then advanceWake i t th.wakeAt else th.wakeAt⟩ := by
  rw [wakeStep]
  by_cases h : th.wakeAt ≤ t
  · simp [h]
  · simp [h]

/-- Helper: every thread surviving `processWakes` descends from a thread
of the input list, keeping its identity, and is due within one interval
after `t` provided every input thread was due within one interval after
some `now ≤ t`. -/
theorem processWakes_bound (i : ℚ) (hi : 0 < i) (r : Bool) (t now : ℚ)
    (hnt : now ≤ t) (l : List RecThread)
    (hb : ∀ th ∈ l, th.wakeAt ≤ now + i) :
    ∀ th2 ∈ processWakes i r t l,
      (∃ th ∈ l, th2.tid = th.tid) ∧ th2.wakeAt ≤ t + i := by
  intro th2 h2
  rcases List.mem_filterMap.mp h2 with ⟨th, hth, heq⟩
  rcases wakeStep_some i r t th th2 hi heq with ⟨hid, hw⟩
  refine ⟨⟨th, hth, hid⟩, ?_⟩
  rcases hw with h | h
  · exact h
  · rw [h]
    exact le_trans (hb th hth) (by linarith)

/-- Helper: `start_monitoring` preserves the lifecycle invariant. -/
theorem start_monitoring_inv (i : ℚ) (hi : 0 < i) (treq : ℚ)
    (s : LifecycleState) (hs : LifecycleInv i s) :
    LifecycleInv i (s.start_monitoring i treq) := by
  rcases hs with ⟨hlen, hmem, hstop⟩
  cases hrun : s.running
  · have hlive : s.live = [] := hstop hrun
    simp only [LifecycleState.start_monitoring, hrun, hlive, processWakes,
      List.filterMap_nil, Bool.false_eq_true, if_false, List.nil_append]
    refine ⟨by simp, ?_, by simp⟩
    intro th hth
    rcases List.mem_singleton.mp hth with rfl
    exact ⟨rfl, le_refl _⟩
  · simp only [LifecycleState.start_monitoring, hrun, if_true]
    have hb := processWakes_bound i hi s.running (rmax treq s.now) s.now
      (le_rmax_right treq s.now) s.live (fun th hth => (hmem th hth).2)
    refine ⟨?_, ?_, ?_⟩
    · exact le_trans (List.length_filterMap_le _ _) hlen
    · intro th2 h2
      have h2a : th2 ∈ processWakes i s.running (rmax treq s.now) s.live := by
        rw [hrun]
        exact h2
      rcases hb th2 h2a with ⟨⟨th, hth, hid⟩, hwk⟩
      constructor
      · show s.thread = some th2.tid
        rw [hid, (hmem th hth).1]
      · exact hwk
    · intro hcontra
      exact Bool.noConfusion hcontra

/-- Helper: `stop_monitoring` preserves the lifecycle invariant; indeed
under the invariant, when the update interval is within the join timeout,
stopping always leaves no live thread. -/
theorem stop_monitoring_inv (i tmo : ℚ) (hi : 0 < i) (hto : i ≤ tmo)
    (treq : ℚ) (s : LifecycleState) (hs : LifecycleInv i s) :
    LifecycleInv i (s.stop_monitoring i tmo treq)
    ∧ (s.stop_monitoring i tmo treq).live = [] := by
  rcases hs with ⟨hlen, hmem, hstop⟩
  cases hrun : s.running
  · have hlive : s.live = [] := hstop hrun
    simp only [LifecycleState.stop_monitoring, hrun, hlive, processWakes,
      List.filterMap_nil]
    cases s.thread
    · exact ⟨⟨by simp, by simp, by simp⟩, by simp⟩
    · simp only [List.find?_nil]
      exact ⟨⟨by simp, by simp, by simp⟩, by simp⟩
  · cases hlivecase : s.live with
    | nil =>
        simp only [LifecycleState.stop_monitoring, hrun, hlivecase,
          processWakes, List.filterMap_nil]
        cases s.thread
        · exact ⟨⟨by simp, by simp, by simp⟩, by simp⟩
        · simp only [List.find?_nil]
          exact ⟨⟨by simp, by simp, by simp⟩, by simp⟩
    | cons th rest =>
        have hrest : rest = [] := by
          rw [hlivecase] at hlen
          simp only [List.length_cons] at hlen
          exact List.length_eq_zero.mp (by omega)
        subst hrest
        obtain ⟨hth1, hth2⟩ := hmem th (by rw [hlivecase]; exact List.mem_singleton_self th)
        have hnow : s.now ≤ rmax treq s.now := le_rmax_right treq s.now
        have hpw : processWakes i true (rmax treq s.now) [th] =
            [⟨th.tid, if th.wakeAt ≤ rmax treq s.now
              then advanceWake i (rmax treq s.now) th.wakeAt else th.wakeAt⟩] := by
          simp [processWakes, wakeStep_true]
        have hw2 : (if th.wakeAt ≤ rmax treq s.now
            then advanceWake i (rmax treq s.now) th.wakeAt else th.wakeAt) ≤
            rmax treq s.now + i := by
          by_cases hc : th.wakeAt ≤ rmax treq s.now
          · rw [if_pos hc]
            exact advanceWake_le i (rmax treq s.now) th.wakeAt hi hc
          · rw [if_neg hc]
            linarith
        simp only [LifecycleState.stop_monitoring, hrun, hlivecase, hpw, hth1]
        simp only [List.find?_cons, beq_self_eq_true]
        rw [if_pos (by linarith : (if th.wakeAt ≤ rmax treq s.now
            then advanceWake i (rmax treq s.now) th.wakeAt else th.wakeAt) ≤
            rmax treq s.now + tmo)]
        simp only [List.filter, beq_self_eq_true, Bool.not_true]
        exact ⟨⟨by simp, by simp, by simp⟩, by simp⟩

/-- Claim C6 is false as stated: its invariant part fails for the Disk
monitor, whose `update_interval` (5 s) exceeds the 2-second join timeout
of `stop_monitoring`.  Trace: `start` at `t = 0` (the recorder sleeps
until `t = 5`); `stop` at `t = 1` — the join gives up at `t = 3` while
the thread is still mid-sleep, yet the handle is dropped; `start` at
`t = 3` spawns a second recorder.  The old thread, waking at `t = 5`,
sees the re-raised running flag and keeps recording: two live recorder
threads. -/
theorem claim_C6_counterexample :
    (runTrace 5 2 [(true, 0), (false, 1), (true, 3)]).live.length = 2
    ∧ ¬ (runTrace 5 2 [(true, 0), (false, 1), (true, 3)]).live.length ≤ 1 := by
  refine ⟨?_, ?_⟩ <;>
    norm_num [runTrace, LifecycleState.start_monitoring,
      LifecycleState.stop_monitoring, LifecycleState.initial, processWakes,
      wakeStep, rmax, List.find?, List.filterMap_cons, List.filterMap_nil]

/-- Claim C6, amended: `start_monitoring` twice in a row leaves exactly
one live recorder thread (the second call spawns nothing and keeps the
same handle), and `stop_monitoring` on a never-started monitor is a
no-op that returns promptly; the invariant `at most one recorder thread`
holds after every call sequence provided the update interval is within
the 2-second join timeout (true for the CPU, Memory and Network monitors
at their 1-second default, not guaranteed for the Disk monitor's
5-second interval, as the counterexample shows). -/
theorem claim_C6_amended (interval timeoutSec : ℚ) (hi : 0 < interval)
    (hto : interval ≤ timeoutSec) :
    (∀ ops : List (Bool × ℚ),
        (runTrace interval timeoutSec ops).live.length ≤ 1)
    ∧ (∀ t1 t2 : ℚ,
        ((LifecycleState.initial.start_monitoring interval
            t1).start_monitoring interval t2).live.length = 1
        ∧ ((LifecycleState.initial.start_monitoring interval
            t1).start_monitoring interval t2).thread =
          (LifecycleState.initial.start_monitoring interval t1).thread
        ∧ ((LifecycleState.initial.start_monitoring interval
            t1).start_monitoring interval t2).nextId =
          (LifecycleState.initial.start_monitoring interval t1).nextId)
    ∧ (∀ t : ℚ, LifecycleState.initial.stop_monitoring interval timeoutSec t =
        ⟨false, none, [], 0, rmax t 0⟩) := by
  refine ⟨?_, ?_, ?_⟩
  · intro ops
    have hstep : ∀ (l : List (Bool × ℚ)) (s : LifecycleState),
        LifecycleInv interval s →
        LifecycleInv interval (l.foldl
          (fun s op =>
            if op.1 then LifecycleState.start_monitoring interval op.2 s
            else LifecycleState.stop_monitoring interval timeoutSec op.2 s)
          s) := by
      intro l
      induction l with
      | nil => intro s hs; exact hs
      | cons op l ih =>
          intro s hs
          rw [List.foldl_cons]
          apply ih
          by_cases hop : op.1 = true
          · rw [if_pos hop]
            exact start_monitoring_inv interval hi op.2 s hs
          · rw [if_neg hop]
            exact (stop_monitoring_inv interval timeoutSec hi hto op.2 s hs).1
    have hInv : LifecycleInv interval (runTrace interval timeoutSec ops) := by
      rw [runTrace]
      exact hstep ops LifecycleState.initial
        ⟨by simp [LifecycleState.initial], by simp [LifecycleState.initial],
          by simp [LifecycleState.initial]⟩
    exact hInv.1
  · intro t1 t2
    refine ⟨?_, rfl, rfl⟩
    show (processWakes interval true (rmax t2 (rmax t1 0))
        [⟨0, rmax t1 0 + interval⟩]).length = 1
    rw [processWakes_true_length]
    rfl
  · intro t
    rfl

/-- Witness for the amended claim C6 at `interval = 1`,
`timeout = 2` on a start–stop–start–stop trace. -/
theorem claim_C6_amended_witness :
    (runTrace 1 2 [(true, 0), (false, 1), (true, 2), (false, 3)]).live.length ≤ 1 :=
  (claim_C6_amended 1 2 (by norm_num) (by norm_num)).1
    [(true, 0), (false, 1), (true, 2), (false, 3)]
